import Mathlib

/-!
Shallow embedding of the password-strength meter (`src/app.py`) and proofs
about it.  Python strings are modelled as `List Char`; the scoring function
`check_password_strength`, the generator `generate_strong_password`, the
progress-bar color map `get_progress_color`, the caller-side percentage
computation (line 116) and the tier thresholds (lines 128-133) are
translated directly from the source.  The optional zxcvbn estimator (an
external library) is modelled as an `Option`-valued parameter carrying its
documented output: a score, a warning string and a suggestion list.
Randomness in the generator is modelled by an explicit choice oracle
giving, for each position, an index into the character pool.
-/

namespace PasswordMeter

/-- Feedback message for a non-string input (app.py line 28). -/
def INVALID_MSG : String := "Invalid input: password must be a string."

/-- Feedback message for a common password (app.py line 31). -/
def COMMON_MSG : String := "This password is too common. Please choose a different one."

/-- Feedback message for the length check (app.py line 39). -/
def LENGTH_MSG : String := "Password should be at least 8 characters long."

/-- Feedback message for the case-mixture check (app.py line 44). -/
def CASE_MSG : String := "Include both uppercase and lowercase letters."

/-- Feedback message for the digit check (app.py line 49). -/
def DIGIT_MSG : String := "Add at least one number (0-9)."

/-- Feedback message for the special-character check (app.py line 54). -/
def SPECIAL_MSG : String := "Include at least one special character (!@#$%^&*)."

/-- `COMMON_PASSWORDS` (app.py line 17), as character sequences. -/
def COMMON_PASSWORDS : List (List Char) :=
  ["password".toList, "123456".toList, "12345678".toList, "qwerty".toList, "abc123".toList]

/-- Python's `str.lower()` applied to a character sequence (app.py line 30). -/
def pyLower (s : List Char) : List Char := s.map Char.toLower

/-- A Python value passed to `check_password_strength`; the function begins
with an `isinstance(password, str)` test, so the embedding distinguishes
string values from a few representative non-string values. -/
inductive PyValue where
  | str (s : List Char)
  | int (n : ℤ)
  | noneV
  | boolV (b : Bool)
deriving DecidableEq

/-- Python's `isinstance(password, str)` (app.py line 27). -/
def PyValue.isStr : PyValue → Bool
  | .str _ => true
  | _ => false

/-- Output of the zxcvbn estimator relevant to app.py lines 59-65:
`result['score']`, `result['feedback']['warning']`,
`result['feedback']['suggestions']`. -/
structure EstResult where
  score : ℚ
  warning : String
  suggestions : List String

/-- The external estimator: a function from the password to its result. -/
def Estimator : Type := (List Char) → EstResult

/-- The special characters matched by the regex `[!@#$%^&*]` (app.py line 51). -/
def specialChars : List Char := ['!', '@', '#', '$', '%', '^', '&', '*']

/-- The four rule checks of app.py lines 33-54: starting from
`basic_score = 0` and `feedback = []`, each check either adds one point or
appends its feedback message.  The regexes `[A-Z]`, `[a-z]`, `\d` and
`[!@#$%^&*]` searched by `re.search` become existence checks over the
characters. -/
def basic_result (password : List Char) : ℕ × List String :=
  let basic_score : ℕ := 0
  let feedback : List String := []
  let (basic_score, feedback) :=
    if password.length ≥ 8 then (basic_score + 1, feedback)
    else (basic_score, feedback ++ [LENGTH_MSG])
  let (basic_score, feedback) :=
    if password.any Char.isUpper && password.any Char.isLower then (basic_score + 1, feedback)
    else (basic_score, feedback ++ [CASE_MSG])
  let (basic_score, feedback) :=
    if password.any Char.isDigit then (basic_score + 1, feedback)
    else (basic_score, feedback ++ [DIGIT_MSG])
  let (basic_score, feedback) :=
    if password.any (fun c => specialChars.contains c) then (basic_score + 1, feedback)
    else (basic_score, feedback ++ [SPECIAL_MSG])
  (basic_score, feedback)

/-- `check_password_strength` (app.py lines 19-67).  The global flag
`ZXCVBN_AVAILABLE` together with the imported `zxcvbn` function is modelled
by the `Option Estimator` argument: `none` when the import failed, `some z`
when available. -/
def check_password_strength (est : Option Estimator) (password : PyValue) : ℚ × List String :=
  match password with
  | .str p =>
      if pyLower p ∈ COMMON_PASSWORDS then
        (0, [COMMON_MSG])
      else
        let br := basic_result p
        let basic_score : ℕ := br.1
        let feedback : List String := br.2
        match est with
        | none => ((basic_score : ℚ), feedback)
        | some z =>
            let r := z p
            let score : ℚ := ((basic_score : ℚ) + r.score) / 2
            let feedback := if r.warning ≠ "" then feedback ++ [r.warning] else feedback
            let feedback := if r.suggestions ≠ [] then feedback ++ r.suggestions else feedback
            (score, feedback)
  | _ => (0, [INVALID_MSG])

/-- The character pool of `generate_strong_password` (app.py line 73):
`string.ascii_letters + string.digits + "!@#$%^&*"`. -/
def characters : List Char :=
  "abcdefghijklmnopqrstuvwxyzABCDEFGHIJKLMNOPQRSTUVWXYZ0123456789!@#$%^&*".toList

/-- `generate_strong_password` (app.py lines 69-74).  `random.choice` is
modelled by an oracle `choice` giving for each loop iteration an index into
`characters`; Python's `range(length)` on a negative or zero `length` is
empty, which `Int.toNat` captures. -/
def generate_strong_password (choice : ℕ → Fin characters.length) (length : ℤ) : List Char :=
  (List.range length.toNat).map (fun i => characters.get (choice i))

/-- `get_progress_color` (app.py lines 76-82).  The percentage it receives
is the integer computed on line 116. -/
def get_progress_color (percentage : ℤ) : String :=
  if percentage < 40 then "#F44336"
  else if percentage < 70 then "#FF9800"
  else "#4CAF50"

/-- Python's `int()` applied to a rational: truncation toward zero. -/
def pyInt (q : ℚ) : ℤ := if 0 ≤ q then ⌊q⌋ else -⌊-q⌋

/-- The caller-side percentage `min(int((score / 4) * 100), 100)`
(app.py line 116). -/
def strength_percentage (score : ℚ) : ℤ := min (pyInt (score / 4 * 100)) 100

/-- Modelled from the spec (section 4.3): the spec states the percentage as
`min(round(score / 4 * 100), 100)`, with rounding rather than the source's
truncation; kept separate for comparison with `strength_percentage`. -/
def spec_percentage (score : ℚ) : ℤ := min (round (score / 4 * 100)) 100

/-- The strength tiers displayed by the UI. -/
inductive Tier where
  | strong
  | moderate
  | weak
deriving DecidableEq

/-- The tier selection of app.py lines 128-133: `score >= 3.5` gives the
success message, `score >= 2.5` the warning, otherwise the error. -/
def tier_of_score (score : ℚ) : Tier :=
  if score ≥ 3.5 then .strong
  else if score ≥ 2.5 then .moderate
  else .weak

/-- A concrete estimator returning score 3 with no warning or suggestions,
used to instantiate theorems about the estimator-present case. -/
def constEst3 : Estimator := fun _ => ⟨3, "", []⟩

/-- A concrete choice oracle always picking the first pool character, used
to instantiate theorems about the generator. -/
def zeroChoice : ℕ → Fin characters.length := fun _ => ⟨0, by decide⟩

/-! ## Helper lemmas shared by several theorems -/

/-- The incremental score/feedback accumulation of `basic_result` equals a
sum of per-check indicators and a concatenation of per-check feedback, the
checks read as existence of a suitable character. -/
theorem basic_result_eq (p : List Char) :
    basic_result p =
      ((if 8 ≤ p.length then 1 else 0)
          + ((if (∃ c ∈ p, c.isUpper) ∧ (∃ c ∈ p, c.isLower) then 1 else 0)
          + ((if ∃ c ∈ p, c.isDigit then 1 else 0)
          + (if ∃ c ∈ p, c ∈ specialChars then 1 else 0))),
       (if 8 ≤ p.length then [] else [LENGTH_MSG])
          ++ ((if (∃ c ∈ p, c.isUpper) ∧ (∃ c ∈ p, c.isLower) then [] else [CASE_MSG])
          ++ ((if ∃ c ∈ p, c.isDigit then [] else [DIGIT_MSG])
          ++ (if ∃ c ∈ p, c ∈ specialChars then [] else [SPECIAL_MSG])))) := by
  unfold basic_result
  by_cases h1 : 8 ≤ p.length <;>
  by_cases h2 : (∃ c ∈ p, c.isUpper) ∧ (∃ c ∈ p, c.isLower) <;>
  by_cases h3 : ∃ c ∈ p, c.isDigit <;>
  by_cases h4 : ∃ c ∈ p, c ∈ specialChars <;>
  simp [h1, h2, h3, h4, List.any_eq_true, List.elem_iff]

/-- With no estimator, a valid non-common password gets the rule scorer's
score and feedback. -/
theorem check_none_eq (p : List Char) (h : pyLower p ∉ COMMON_PASSWORDS) :
    check_password_strength none (.str p) = (((basic_result p).1 : ℚ), (basic_result p).2) := by
  simp [check_password_strength, h]

/-- With an estimator, a valid non-common password gets the averaged score,
and the estimator's warning (when non-empty) and suggestions are appended
to the rule scorer's feedback. -/
theorem check_some_eq (z : Estimator) (p : List Char) (h : pyLower p ∉ COMMON_PASSWORDS) :
    check_password_strength (some z) (.str p)
      = ((((basic_result p).1 : ℚ) + (z p).score) / 2,
         (basic_result p).2
           ++ (if (z p).warning ≠ "" then [(z p).warning] else [])
           ++ (z p).suggestions) := by
  by_cases hw : (z p).warning = "" <;> by_cases hs : (z p).suggestions = [] <;>
    simp [check_password_strength, h, hw, hs]

/-- The rule scorer's basic score is at most 4. -/
theorem basic_le_four (p : List Char) : (basic_result p).1 ≤ 4 := by
  rw [basic_result_eq]
  dsimp only
  split_ifs <;> norm_num

/-- When the estimator (if present) returns scores in [0,4], the combined
score lies in [0,4]. -/
theorem check_score_bounds (est : Option Estimator) (v : PyValue)
    (hest : ∀ z, est = some z → ∀ q, 0 ≤ (z q).score ∧ (z q).score ≤ 4) :
    0 ≤ (check_password_strength est v).1 ∧ (check_password_strength est v).1 ≤ 4 := by
  cases v with
  | str p =>
      by_cases h : pyLower p ∈ COMMON_PASSWORDS
      · simp [check_password_strength, h]
      · have hb0 : (0:ℚ) ≤ ((basic_result p).1 : ℚ) := by positivity
        have hb4 : ((basic_result p).1 : ℚ) ≤ 4 := by
          exact_mod_cast basic_le_four p
        cases est with
        | none => rw [check_none_eq p h]; exact ⟨hb0, hb4⟩
        | some z =>
            obtain ⟨hz0, hz4⟩ := hest z rfl p
            rw [check_some_eq z p h]
            constructor
            · dsimp only
              linarith
            · dsimp only
              linarith
  | int n => simp [check_password_strength]
  | noneV => simp [check_password_strength]
  | boolV b => simp [check_password_strength]

/-! ## Claim theorems -/

/-- C2: every password whose lowercasing is in `COMMON_PASSWORDS` gets score
0 and exactly the common-password feedback, for any estimator availability
(so the estimator is never consulted and no rule check contributes). -/
theorem common_password_short_circuit (est : Option Estimator) (p : List Char)
    (h : pyLower p ∈ COMMON_PASSWORDS) :
    check_password_strength est (.str p) = (0, [COMMON_MSG]) := by
  simp [check_password_strength, h]

/-- C2 witness: `"PaSsWoRd"` is a case mixture of a common password and is
rejected with score 0. -/
theorem common_password_short_circuit_witness :
    pyLower "PaSsWoRd".toList ∈ COMMON_PASSWORDS ∧
    check_password_strength none (.str "PaSsWoRd".toList) = (0, [COMMON_MSG]) :=
  ⟨by decide, common_password_short_circuit none ("PaSsWoRd".toList) (by decide)⟩

/-- C3: every non-string input gets score 0 and exactly the invalid-input
feedback, for any estimator availability; no exception is modelled since the
function is total. -/
theorem invalid_type_short_circuit (est : Option Estimator) (v : PyValue)
    (h : v.isStr = false) :
    check_password_strength est v = (0, [INVALID_MSG]) := by
  cases v
  case str s => simp [PyValue.isStr] at h
  all_goals rfl

/-- C3 witness: the integer 5 is not a string and is rejected with score 0. -/
theorem invalid_type_short_circuit_witness :
    PyValue.isStr (.int 5) = false ∧
    check_password_strength none (.int 5) = (0, [INVALID_MSG]) :=
  ⟨rfl, invalid_type_short_circuit none (.int 5) rfl⟩

/-- C4: for a valid non-common password the basic score is the count of
passed checks (length, case mixture, digit, special), each failed check
contributes its fixed message in the fixed order, and
`evaluate("abcdefgh")` gives basic score 1 with the case, digit and special
messages in that order. -/
theorem rule_scorer_counts (p : List Char) (h : pyLower p ∉ COMMON_PASSWORDS) :
    (basic_result p).1
        = (if 8 ≤ p.length then 1 else 0)
          + ((if (∃ c ∈ p, c.isUpper) ∧ (∃ c ∈ p, c.isLower) then 1 else 0)
          + ((if ∃ c ∈ p, c.isDigit then 1 else 0)
          + (if ∃ c ∈ p, c ∈ specialChars then 1 else 0)))
    ∧ (basic_result p).1 ≤ 4
    ∧ (basic_result p).2
        = (if 8 ≤ p.length then [] else [LENGTH_MSG])
          ++ ((if (∃ c ∈ p, c.isUpper) ∧ (∃ c ∈ p, c.isLower) then [] else [CASE_MSG])
          ++ ((if ∃ c ∈ p, c.isDigit then [] else [DIGIT_MSG])
          ++ (if ∃ c ∈ p, c ∈ specialChars then [] else [SPECIAL_MSG])))
    ∧ check_password_strength none (.str "abcdefgh".toList)
        = (1, [CASE_MSG, DIGIT_MSG, SPECIAL_MSG]) := by
  refine ⟨congrArg Prod.fst (basic_result_eq p), basic_le_four p,
          congrArg Prod.snd (basic_result_eq p), ?_⟩
  rw [check_none_eq _ (by decide),
      show basic_result "abcdefgh".toList = (1, [CASE_MSG, DIGIT_MSG, SPECIAL_MSG]) from by decide]
  norm_num

/-- C4 witness: instantiation at the password `"abcdefgh"`. -/
theorem rule_scorer_counts_witness :
    pyLower "abcdefgh".toList ∉ COMMON_PASSWORDS ∧
    ((basic_result "abcdefgh".toList).1
        = (if 8 ≤ ("abcdefgh".toList).length then 1 else 0)
          + ((if (∃ c ∈ "abcdefgh".toList, c.isUpper) ∧ (∃ c ∈ "abcdefgh".toList, c.isLower) then 1 else 0)
          + ((if ∃ c ∈ "abcdefgh".toList, c.isDigit then 1 else 0)
          + (if ∃ c ∈ "abcdefgh".toList, c ∈ specialChars then 1 else 0)))
    ∧ (basic_result "abcdefgh".toList).1 ≤ 4
    ∧ (basic_result "abcdefgh".toList).2
        = (if 8 ≤ ("abcdefgh".toList).length then [] else [LENGTH_MSG])
          ++ ((if (∃ c ∈ "abcdefgh".toList, c.isUpper) ∧ (∃ c ∈ "abcdefgh".toList, c.isLower) then [] else [CASE_MSG])
          ++ ((if ∃ c ∈ "abcdefgh".toList, c.isDigit then [] else [DIGIT_MSG])
          ++ (if ∃ c ∈ "abcdefgh".toList, c ∈ specialChars then [] else [SPECIAL_MSG])))
    ∧ check_password_strength none (.str "abcdefgh".toList)
        = (1, [CASE_MSG, DIGIT_MSG, SPECIAL_MSG])) :=
  ⟨by decide, rule_scorer_counts ("abcdefgh".toList) (by decide)⟩

/-- C10: for a valid non-common password the rule feedback has exactly
`4 - basic_score` entries, and with no estimator the feedback is empty
exactly when the score is 4. -/
theorem feedback_count_invariant (p : List Char) (h : pyLower p ∉ COMMON_PASSWORDS) :
    (basic_result p).2.length = 4 - (basic_result p).1
    ∧ ((check_password_strength none (.str p)).2 = []
        ↔ (check_password_strength none (.str p)).1 = 4) := by
  have hb := basic_result_eq p
  constructor
  · rw [hb]
    dsimp only
    split_ifs <;> simp
  · rw [check_none_eq p h, hb]
    dsimp only
    split_ifs <;> norm_num <;> simp

/-- C10 witness: instantiation at the password `"abcdefgh"`. -/
theorem feedback_count_invariant_witness :
    pyLower "abcdefgh".toList ∉ COMMON_PASSWORDS ∧
    ((basic_result "abcdefgh".toList).2.length = 4 - (basic_result "abcdefgh".toList).1
     ∧ ((check_password_strength none (.str "abcdefgh".toList)).2 = []
         ↔ (check_password_strength none (.str "abcdefgh".toList)).1 = 4)) :=
  ⟨by decide, feedback_count_invariant ("abcdefgh".toList) (by decide)⟩

/-- C5: for a valid non-common password the combined score is the plain
average of basic and estimator scores when the estimator is present and the
basic score when absent, and the feedback is the rule feedback followed by
the estimator's warning (when non-empty) followed by its suggestions. -/
theorem combiner_score_feedback (z : Estimator) (p : List Char)
    (h : pyLower p ∉ COMMON_PASSWORDS) :
    check_password_strength (some z) (.str p)
      = ((((basic_result p).1 : ℚ) + (z p).score) / 2,
         (basic_result p).2
           ++ (if (z p).warning ≠ "" then [(z p).warning] else [])
           ++ (z p).suggestions)
    ∧ check_password_strength none (.str p)
      = (((basic_result p).1 : ℚ), (basic_result p).2) :=
  ⟨check_some_eq z p h, check_none_eq p h⟩

/-- C5 witness: instantiation at `"abc"` with a constant estimator. -/
theorem combiner_score_feedback_witness :
    pyLower "abc".toList ∉ COMMON_PASSWORDS ∧
    (check_password_strength (some constEst3) (.str "abc".toList)
      = ((((basic_result "abc".toList).1 : ℚ) + (constEst3 "abc".toList).score) / 2,
         (basic_result "abc".toList).2
           ++ (if (constEst3 "abc".toList).warning ≠ "" then [(constEst3 "abc".toList).warning] else [])
           ++ (constEst3 "abc".toList).suggestions)
     ∧ check_password_strength none (.str "abc".toList)
      = (((basic_result "abc".toList).1 : ℚ), (basic_result "abc".toList).2)) :=
  ⟨by decide, combiner_score_feedback constEst3 ("abc".toList) (by decide)⟩

/-- C6: for every integer n ≥ 1 and every choice oracle, the generated
password has length exactly n and draws every character from the 70-symbol
pool of letters, digits and the special characters. -/
theorem generate_length_and_pool (choice : ℕ → Fin characters.length) (n : ℤ)
    (h : 1 ≤ n) :
    ((generate_strong_password choice n).length : ℤ) = n
    ∧ (∀ c ∈ generate_strong_password choice n, c ∈ characters)
    ∧ characters.length = 70
    ∧ (∀ c ∈ characters, c.isUpper ∨ c.isLower ∨ c.isDigit ∨ c ∈ specialChars) := by
  refine ⟨?_, ?_, by decide, by decide⟩
  · simp only [generate_strong_password, List.length_map, List.length_range]
    exact_mod_cast Int.toNat_of_nonneg (by linarith)
  · intro c hc
    simp only [generate_strong_password, List.mem_map, List.mem_range] at hc
    obtain ⟨i, _, rfl⟩ := hc
    exact List.get_mem characters (choice i).1 (choice i).2

/-- C6 witness: instantiation at n = 3 with the all-zeros oracle. -/
theorem generate_length_and_pool_witness :
    (1:ℤ) ≤ 3 ∧
    (((generate_strong_password zeroChoice 3).length : ℤ) = 3
     ∧ (∀ c ∈ generate_strong_password zeroChoice 3, c ∈ characters)
     ∧ characters.length = 70
     ∧ (∀ c ∈ characters, c.isUpper ∨ c.isLower ∨ c.isDigit ∨ c ∈ specialChars)) :=
  ⟨by norm_num, generate_length_and_pool zeroChoice 3 (by norm_num)⟩

/-- C7: for every integer length ≤ 0 and every choice oracle, the generator
returns the empty string (Python's `range` is empty there); the function is
total, so no error is raised. -/
theorem generate_nonpositive_empty (choice : ℕ → Fin characters.length) (n : ℤ)
    (h : n ≤ 0) :
    generate_strong_password choice n = [] := by
  unfold generate_strong_password
  rw [Int.toNat_of_nonpos h]
  rfl

/-- C7 witness: instantiation at n = -3. -/
theorem generate_nonpositive_empty_witness :
    (-3:ℤ) ≤ 0 ∧ generate_strong_password zeroChoice (-3) = [] :=
  ⟨by norm_num, generate_nonpositive_empty zeroChoice (-3) (by norm_num)⟩

/-- C8: the displayed tier is Strong exactly when the score is at least
3.5, Moderate exactly when it is in [2.5, 3.5), and Weak exactly when it is
below 2.5. -/
theorem tier_thresholds (s : ℚ) :
    (tier_of_score s = .strong ↔ 3.5 ≤ s)
    ∧ (tier_of_score s = .moderate ↔ 2.5 ≤ s ∧ s < 3.5)
    ∧ (tier_of_score s = .weak ↔ s < 2.5) := by
  unfold tier_of_score
  split_ifs with h1 h2 <;> refine ⟨?_, ?_, ?_⟩ <;> simp_all <;> try linarith

/-- C9: on percentages in [0,100] the bar color is red exactly below 40,
orange exactly in [40, 69], and green exactly from 70 upward. -/
theorem progress_color_thresholds (p : ℤ) (h0 : 0 ≤ p) (h100 : p ≤ 100) :
    (get_progress_color p = "#F44336" ↔ p < 40)
    ∧ (get_progress_color p = "#FF9800" ↔ 40 ≤ p ∧ p ≤ 69)
    ∧ (get_progress_color p = "#4CAF50" ↔ 70 ≤ p) := by
  unfold get_progress_color
  split_ifs with h1 h2 <;> refine ⟨?_, ?_, ?_⟩ <;> simp <;> omega

/-- C9 witness: instantiation at percentage 50 (orange). -/
theorem progress_color_thresholds_witness :
    (0:ℤ) ≤ 50 ∧ (50:ℤ) ≤ 100 ∧
    ((get_progress_color 50 = "#F44336" ↔ (50:ℤ) < 40)
     ∧ (get_progress_color 50 = "#FF9800" ↔ (40:ℤ) ≤ 50 ∧ (50:ℤ) ≤ 69)
     ∧ (get_progress_color 50 = "#4CAF50" ↔ (70:ℤ) ≤ 50)) :=
  ⟨by norm_num, by norm_num, progress_color_thresholds 50 (by norm_num) (by norm_num)⟩

/-- C1 counterexample: `evaluate` with an estimator of score 3 on `"abc"`
returns the score 3/2, for which line 116 computes percentage 37 while the
claimed formula `min(round(score / 4 * 100), 100)` gives 38. -/
theorem percentage_rounding_counterexample :
    (check_password_strength (some constEst3) (.str "abc".toList)).1 = 3/2
    ∧ strength_percentage (3/2) = 37
    ∧ spec_percentage (3/2) = 38
    ∧ strength_percentage (3/2) ≠ spec_percentage (3/2) := by
  have harg : ((3:ℚ)/2) / 4 * 100 = 75/2 := by norm_num
  have hfloor : ⌊(75/2 : ℚ)⌋ = 37 := by
    rw [Int.floor_eq_iff] <;> norm_num
  have hround : round ((75/2 : ℚ)) = 38 := by
    rw [round_eq, Int.floor_eq_iff] <;> norm_num
  refine ⟨?_, ?_, ?_, ?_⟩
  · rw [check_some_eq constEst3 _ (by decide)]
    dsimp only
    rw [show basic_result "abc".toList = (0, [LENGTH_MSG, CASE_MSG, DIGIT_MSG, SPECIAL_MSG])
          from by decide]
    norm_num [constEst3]
  · rw [strength_percentage, pyInt, harg, if_pos (by norm_num), hfloor]
    norm_num
  · rw [spec_percentage, harg, hround]
    norm_num
  · rw [strength_percentage, spec_percentage, pyInt, harg, if_pos (by norm_num), hfloor, hround]
    norm_num

/-- C1 (amended): the caller-side percentage equals
`min(floor(score / 4 * 100), 100)` — Python's `int()` truncation, not
rounding — and lies in [0,100] whenever the estimator obeys its [0,4]
contract; score 4 maps to percentage 100 and score 0 to percentage 0. -/
theorem percentage_truncation (est : Option Estimator) (v : PyValue)
    (hest : ∀ z, est = some z → ∀ q, 0 ≤ (z q).score ∧ (z q).score ≤ 4) :
    strength_percentage (check_password_strength est v).1
        = min ⌊(check_password_strength est v).1 / 4 * 100⌋ 100
    ∧ 0 ≤ strength_percentage (check_password_strength est v).1
    ∧ strength_percentage (check_password_strength est v).1 ≤ 100
    ∧ strength_percentage 4 = 100 ∧ strength_percentage 0 = 0 := by
  obtain ⟨h0, h4⟩ := check_score_bounds est v hest
  have hq : 0 ≤ (check_password_strength est v).1 / 4 * 100 := by positivity
  refine ⟨?_, ?_, ?_, ?_, ?_⟩
  · rw [strength_percentage, pyInt, if_pos hq]
  · rw [strength_percentage, pyInt, if_pos hq]
    exact le_min (Int.floor_nonneg.mpr hq) (by norm_num)
  · exact min_le_right _ _
  · rw [strength_percentage, pyInt]
    norm_num
  · rw [strength_percentage, pyInt]
    norm_num

/-- C1 witness: instantiation with no estimator at the password `"abc"`. -/
theorem percentage_truncation_witness :
    (∀ z, (none : Option Estimator) = some z → ∀ q, 0 ≤ (z q).score ∧ (z q).score ≤ 4)
    ∧ (strength_percentage (check_password_strength none (.str "abc".toList)).1
        = min ⌊(check_password_strength none (.str "abc".toList)).1 / 4 * 100⌋ 100
      ∧ 0 ≤ strength_percentage (check_password_strength none (.str "abc".toList)).1
      ∧ strength_percentage (check_password_strength none (.str "abc".toList)).1 ≤ 100
      ∧ strength_percentage 4 = 100 ∧ strength_percentage 0 = 0) :=
  ⟨fun z hz => absurd hz (by simp),
   percentage_truncation none (.str "abc".toList) (fun z hz => absurd hz (by simp))⟩

end PasswordMeter
